import Mathlib

/-!
Verification of the `io_scene_3ds` add-on registration glue
(`src/io_scene_3ds/__init__.py`): a shallow embedding of the two operator
classes (`Import3DS`, `Export3DS`), the four file-browser panels, the menu
callbacks, and `register`/`unregister`, together with a model of the small
slice of the host API (`bpy`, `bpy_extras.io_utils`) that this layer calls.
-/

set_option autoImplicit false

/-- A signed axis name as used by the orientation helper's enum properties:
one of the strings "X", "Y", "Z", "-X", "-Y", "-Z". -/
inductive Axis : Type
  | X | Y | Z | negX | negY | negZ
deriving DecidableEq, Repr

/-- The string form of an axis enum value, as stored in the property. -/
def Axis.str : Axis → String
  | .X => "X" | .Y => "Y" | .Z => "Z"
  | .negX => "-X" | .negY => "-Y" | .negZ => "-Z"

/-- The unit vector of a signed axis, with exact integer coordinates. -/
def Axis.vec : Axis → Fin 3 → ℤ
  | .X => ![1, 0, 0] | .Y => ![0, 1, 0] | .Z => ![0, 0, 1]
  | .negX => ![-1, 0, 0] | .negY => ![0, -1, 0] | .negZ => ![0, 0, -1]

/-- Cross product of two integer 3-vectors. -/
def cross3 (a b : Fin 3 → ℤ) : Fin 3 → ℤ :=
  ![a 1 * b 2 - a 2 * b 1, a 2 * b 0 - a 0 * b 2, a 0 * b 1 - a 1 * b 0]

/-- The orthonormal frame of a (forward, up) axis convention: columns are the
forward vector, the up vector, and their cross product. -/
def axisFrame (forward up : Axis) : Matrix (Fin 3) (Fin 3) ℤ :=
  Matrix.of fun i j =>
    if j = 0 then forward.vec i
    else if j = 1 then up.vec i
    else cross3 forward.vec up.vec i

/-- Models the host helper `bpy_extras.io_utils.axis_conversion`: the
change-of-basis rotation taking the source (forward, up) convention to the
target one, and the identity matrix when the two conventions coincide (the
helper's first branch).  The host raises an exception on a degenerate pair
(forward and up on the same axis); the orientation helper's enum update
callbacks keep configured pairs non-degenerate, and the claims below only
quantify over configured pairs, so the model is total. -/
def axis_conversion (from_forward from_up to_forward to_up : Axis) :
    Matrix (Fin 3) (Fin 3) ℤ :=
  if from_forward = to_forward ∧ from_up = to_up then 1
  else axisFrame to_forward to_up * Matrix.transpose (axisFrame from_forward from_up)

/-- Models `Matrix.to_4x4`: embed a 3x3 matrix in the upper-left block of a
4x4 matrix whose last row and column are those of the identity. -/
def to_4x4 (m : Matrix (Fin 3) (Fin 3) ℤ) : Matrix (Fin 4) (Fin 4) ℤ :=
  Matrix.of fun i j =>
    if hi : (i : ℕ) < 3 then
      if hj : (j : ℕ) < 3 then m ⟨i, hi⟩ ⟨j, hj⟩ else 0
    else if (j : ℕ) < 3 then 0 else 1

/-- A property value as it appears in the keyword record built by
`as_keywords`: a bool flag, a float (exact rational in the model, since this
layer never computes with it), a string, or the injected 4x4 matrix. -/
inductive Value : Type
  | b (x : Bool)
  | f (q : ℚ)
  | s (t : String)
  | m (mat : Matrix (Fin 4) (Fin 4) ℤ)

/-- The properties of the `Import3DS` operator: the two orientation-helper
enums, the two `ImportHelper`/class string properties, and the six options
declared in the class body (source lines 48-84). -/
structure Import3DSProps : Type where
  axis_forward : Axis
  axis_up : Axis
  filepath : String
  filter_glob : String
  constrain_size : ℚ
  convert_measure : Bool
  use_image_search : Bool
  use_apply_transform : Bool
  read_keyframe : Bool
  use_world_matrix : Bool

/-- The properties of the `Export3DS` operator: orientation-helper enums,
`ExportHelper`'s `filepath` and `check_existing`, `filter_glob`, and the four
options declared in the class body (source lines 167-193). -/
structure Export3DSProps : Type where
  axis_forward : Axis
  axis_up : Axis
  filepath : String
  check_existing : Bool
  filter_glob : String
  scale_factor : ℚ
  use_selection : Bool
  use_hierarchy : Bool
  write_keyframe : Bool

/-- The full keyword record of every declared property of `Import3DS`, as
`as_keywords` would enumerate it before applying the ignore tuple. -/
def Import3DSProps.allKeywords (p : Import3DSProps) : List (String × Value) :=
  [("axis_forward", .s p.axis_forward.str),
   ("axis_up", .s p.axis_up.str),
   ("filepath", .s p.filepath),
   ("filter_glob", .s p.filter_glob),
   ("constrain_size", .f p.constrain_size),
   ("convert_measure", .b p.convert_measure),
   ("use_image_search", .b p.use_image_search),
   ("use_apply_transform", .b p.use_apply_transform),
   ("read_keyframe", .b p.read_keyframe),
   ("use_world_matrix", .b p.use_world_matrix)]

/-- The full keyword record of every declared property of `Export3DS`. -/
def Export3DSProps.allKeywords (p : Export3DSProps) : List (String × Value) :=
  [("axis_forward", .s p.axis_forward.str),
   ("axis_up", .s p.axis_up.str),
   ("filepath", .s p.filepath),
   ("check_existing", .b p.check_existing),
   ("filter_glob", .s p.filter_glob),
   ("scale_factor", .f p.scale_factor),
   ("use_selection", .b p.use_selection),
   ("use_hierarchy", .b p.use_hierarchy),
   ("write_keyframe", .b p.write_keyframe)]

/-- Models `Operator.as_keywords(ignore=...)`: the property record with the
ignored keys dropped. -/
def as_keywords (all : List (String × Value)) (ignore : List String) :
    List (String × Value) :=
  all.filter fun kv => !ignore.contains kv.1

/-- The ignore tuple of `Import3DS.execute` (source lines 89-92). -/
def Import3DS.ignoreKeys : List String :=
  ["axis_forward", "axis_up", "filter_glob"]

/-- The ignore tuple of `Export3DS.execute` (source lines 198-202). -/
def Export3DS.ignoreKeys : List String :=
  ["axis_forward", "axis_up", "filter_glob", "check_existing"]

/-- The `global_matrix` computed by `Import3DS.execute` (source lines 94-96):
`axis_conversion` with the configured pair as the source convention and the
helper's default target convention (Y forward, Z up), promoted to 4x4. -/
def Import3DS.global_matrix (p : Import3DSProps) : Matrix (Fin 4) (Fin 4) ℤ :=
  to_4x4 (axis_conversion p.axis_forward p.axis_up Axis.Y Axis.Z)

/-- The `global_matrix` computed by `Export3DS.execute` (source lines
203-205): `axis_conversion` with the configured pair as the target convention
and the default source convention, promoted to 4x4. -/
def Export3DS.global_matrix (p : Export3DSProps) : Matrix (Fin 4) (Fin 4) ℤ :=
  to_4x4 (axis_conversion Axis.Y Axis.Z p.axis_forward p.axis_up)

/-- The keyword record `Import3DS.execute` hands to `import_3ds.load`:
`as_keywords` with the ignore tuple applied, then `global_matrix` stored
under a fresh key (source lines 89-97). -/
def Import3DS.passedKeywords (p : Import3DSProps) : List (String × Value) :=
  as_keywords p.allKeywords Import3DS.ignoreKeys
    ++ [("global_matrix", .m (Import3DS.global_matrix p))]

/-- The keyword record `Export3DS.execute` hands to `export_3ds.save`. -/
def Export3DS.passedKeywords (p : Export3DSProps) : List (String × Value) :=
  as_keywords p.allKeywords Export3DS.ignoreKeys
    ++ [("global_matrix", .m (Export3DS.global_matrix p))]

/-- Models `Import3DS.execute` (source lines 86-99): build the keyword
record, then return exactly what the external `import_3ds.load` delegate
returns.  The delegate is a parameter, since `import_3ds` is outside this
source excerpt; the result type is abstract. -/
def Import3DS.execute {α : Type} (load : List (String × Value) → α)
    (p : Import3DSProps) : α :=
  load (Import3DS.passedKeywords p)

/-- Models `Export3DS.execute` (source lines 195-208), delegating to
`export_3ds.save`. -/
def Export3DS.execute {α : Type} (save : List (String × Value) → α)
    (p : Export3DSProps) : α :=
  save (Export3DS.passedKeywords p)

/-- The default property values of `Import3DS`, from the property
declarations and the orientation-helper decorator arguments
`axis_forward='Y', axis_up='Z'` (source lines 40, 48-84). -/
def Import3DS.defaults : Import3DSProps where
  axis_forward := Axis.Y
  axis_up := Axis.Z
  filepath := ""
  filter_glob := "*.3ds"
  constrain_size := 10
  convert_measure := false
  use_image_search := true
  use_apply_transform := true
  read_keyframe := true
  use_world_matrix := false

/-- The default property values of `Export3DS` (source lines 159, 167-193;
`check_existing` defaults to true in the host's `ExportHelper`). -/
def Export3DS.defaults : Export3DSProps where
  axis_forward := Axis.Y
  axis_up := Axis.Z
  filepath := ""
  check_existing := true
  filter_glob := "*.3ds"
  scale_factor := 1
  use_selection := false
  use_hierarchy := false
  write_keyframe := false

/-- The declared `bl_idname` of the import operator (source line 43). -/
def Import3DS.bl_idname : String := "import_scene.max3ds"

/-- The declared `bl_idname` of the export operator (source line 162). -/
def Export3DS.bl_idname : String := "export_scene.max3ds"

/-- The characters of a `bl_idname` before its first dot. -/
def idnameModule : List Char → List Char
  | [] => []
  | c :: cs => if c = '.' then [] else c :: idnameModule cs

/-- The characters of a `bl_idname` after its first dot, when it has one. -/
def idnameTail : List Char → Option (List Char)
  | [] => none
  | c :: cs => if c = '.' then some cs else idnameTail cs

/-- Models the host's operator-name mangling: a Python-side `bl_idname` of
the form "module.name" is exposed on runtime operator instances as
"MODULE_OT_name" (module uppercased). -/
def rnaOperatorIdname (s : String) : String :=
  match idnameTail s.data with
  | some rest =>
      String.mk ((idnameModule s.data).map Char.toUpper) ++ "_OT_" ++ String.mk rest
  | none => s

/-- A runtime operator instance as seen through `space_data.active_operator`:
all the panels read is its `bl_idname` string. -/
structure ActiveOperator : Type where
  bl_idname : String
deriving DecidableEq

/-- The file-browser space: `active_operator` is None when no file operation
is in progress. -/
structure SpaceFile : Type where
  active_operator : Option ActiveOperator
deriving DecidableEq

/-- The slice of the host context the panels read. -/
structure Context : Type where
  space_data : SpaceFile
deriving DecidableEq

/-- A Python runtime error surfaced by this layer: dereferencing an
attribute of None. -/
inductive PyError : Type
  | attributeError
deriving DecidableEq

/-- Models `MAX3DS_PT_import_include.poll` (source lines 111-116): read
`context.space_data.active_operator` and compare its `bl_idname` with the
literal "IMPORT_SCENE_OT_max3ds"; with no active operator the attribute
access on None raises. -/
def MAX3DS_PT_import_include.poll (context : Context) : Except PyError Bool :=
  match context.space_data.active_operator with
  | none => .error .attributeError
  | some operator => .ok (operator.bl_idname == "IMPORT_SCENE_OT_max3ds")

/-- Models `MAX3DS_PT_import_transform.poll` (source lines 136-141),
identical to the include panel's predicate. -/
def MAX3DS_PT_import_transform.poll (context : Context) : Except PyError Bool :=
  match context.space_data.active_operator with
  | none => .error .attributeError
  | some operator => .ok (operator.bl_idname == "IMPORT_SCENE_OT_max3ds")

/-- Models `MAX3DS_PT_export_include.poll` (source lines 220-225). -/
def MAX3DS_PT_export_include.poll (context : Context) : Except PyError Bool :=
  match context.space_data.active_operator with
  | none => .error .attributeError
  | some operator => .ok (operator.bl_idname == "EXPORT_SCENE_OT_max3ds")

/-- Models `MAX3DS_PT_export_transform.poll` (source lines 246-251). -/
def MAX3DS_PT_export_transform.poll (context : Context) : Except PyError Bool :=
  match context.space_data.active_operator with
  | none => .error .attributeError
  | some operator => .ok (operator.bl_idname == "EXPORT_SCENE_OT_max3ds")

/-- The slice of a host `UILayout` the panels touch: the two display flags
and the ordered list of property widgets emitted so far, each recorded by
the property identifier passed to `layout.prop`. -/
structure UILayout : Type where
  use_property_split : Bool
  use_property_decorate : Bool
  props : List String
deriving DecidableEq

/-- Models `MAX3DS_PT_import_include.draw` (source lines 118-127): set the
layout flags, read the active operator, and emit one widget per property in
source order. -/
def MAX3DS_PT_import_include.draw (context : Context) (layout : UILayout) :
    Except PyError UILayout :=
  let layout := { layout with use_property_split := true, use_property_decorate := true }
  match context.space_data.active_operator with
  | none => .error .attributeError
  | some _ => .ok { layout with
      props := layout.props ++ ["use_image_search", "read_keyframe"] }

/-- Models `MAX3DS_PT_import_transform.draw` (source lines 143-156). -/
def MAX3DS_PT_import_transform.draw (context : Context) (layout : UILayout) :
    Except PyError UILayout :=
  let layout := { layout with use_property_split := true, use_property_decorate := false }
  match context.space_data.active_operator with
  | none => .error .attributeError
  | some _ => .ok { layout with
      props := layout.props ++ ["constrain_size", "convert_measure",
        "use_apply_transform", "use_world_matrix", "axis_forward", "axis_up"] }

/-- Models `MAX3DS_PT_export_include.draw` (source lines 227-237). -/
def MAX3DS_PT_export_include.draw (context : Context) (layout : UILayout) :
    Except PyError UILayout :=
  let layout := { layout with use_property_split := true, use_property_decorate := true }
  match context.space_data.active_operator with
  | none => .error .attributeError
  | some _ => .ok { layout with
      props := layout.props ++ ["use_selection", "use_hierarchy", "write_keyframe"] }

/-- Models `MAX3DS_PT_export_transform.draw` (source lines 253-263). -/
def MAX3DS_PT_export_transform.draw (context : Context) (layout : UILayout) :
    Except PyError UILayout :=
  let layout := { layout with use_property_split := true, use_property_decorate := false }
  match context.space_data.active_operator with
  | none => .error .attributeError
  | some _ => .ok { layout with
      props := layout.props ++ ["scale_factor", "axis_forward", "axis_up"] }

/-- An entry appended to a host menu by `layout.operator(idname, text)`:
the operator it invokes and its label. -/
structure MenuEntry : Type where
  bl_idname : String
  text : String
deriving DecidableEq

/-- Models `menu_func_import` (source lines 271-272): append a single entry
for `Import3DS.bl_idname` labeled "3D Studio (.3ds)" to the layout it is
given; a pure function of that layout. -/
def menu_func_import (layout : List MenuEntry) : List MenuEntry :=
  layout ++ [{ bl_idname := Import3DS.bl_idname, text := "3D Studio (.3ds)" }]

/-- Models `menu_func_export` (source lines 267-268). -/
def menu_func_export (layout : List MenuEntry) : List MenuEntry :=
  layout ++ [{ bl_idname := Export3DS.bl_idname, text := "3D Studio (.3ds)" }]

/-- The six add-on classes this module registers. -/
inductive AddonClass : Type
  | import3ds
  | importIncludePanel
  | importTransformPanel
  | export3ds
  | exportIncludePanel
  | exportTransformPanel
deriving DecidableEq, Repr

/-- A callback held in a host menu's extension list: one of this module's
two callbacks, or any other callback the host may hold. -/
inductive MenuCallback : Type
  | menuFuncImport
  | menuFuncExport
  | other (id : ℕ)
deriving DecidableEq, Repr

/-- The host registration state this module mutates: the class registry and
the extension lists of the two file menus. -/
structure HostState : Type where
  registered : List AddonClass
  import_menu : List MenuCallback
  export_menu : List MenuCallback
deriving DecidableEq

/-- Models `bpy.utils.register_class`: the class joins the registry. -/
def register_class (s : HostState) (c : AddonClass) : HostState :=
  { s with registered := s.registered ++ [c] }

/-- Models `bpy.utils.unregister_class`: the first matching entry leaves the
registry. -/
def unregister_class (s : HostState) (c : AddonClass) : HostState :=
  { s with registered := s.registered.erase c }

/-- The classes `register` registers, in source order (lines 276-281). -/
def registerClassList : List AddonClass :=
  [.import3ds, .importIncludePanel, .importTransformPanel,
   .export3ds, .exportIncludePanel, .exportTransformPanel]

/-- The classes `unregister` unregisters, in source order (lines 287-292). -/
def unregisterClassList : List AddonClass :=
  [.import3ds, .importIncludePanel, .importTransformPanel,
   .export3ds, .exportIncludePanel, .exportTransformPanel]

/-- Models `register` (source lines 275-283): register the six classes, then
append `menu_func_import` to the import menu and `menu_func_export` to the
export menu. -/
def register (s : HostState) : HostState :=
  let s := registerClassList.foldl register_class s
  let s := { s with import_menu := s.import_menu ++ [MenuCallback.menuFuncImport] }
  { s with export_menu := s.export_menu ++ [MenuCallback.menuFuncExport] }

/-- Models `unregister` (source lines 286-294): unregister the six classes,
then remove the two menu callbacks (first occurrence, as Python's
`list.remove` does). -/
def unregister (s : HostState) : HostState :=
  let s := unregisterClassList.foldl unregister_class s
  let s := { s with import_menu := s.import_menu.erase MenuCallback.menuFuncImport }
  { s with export_menu := s.export_menu.erase MenuCallback.menuFuncExport }

/-- From the spec's data model: the declared ImportConfiguration fields
(scale-constraint threshold, unit-conversion flag, image-search flag,
transform-apply flag, keyframe-read flag, world-space flag, forward/up axis
selection, target file path). -/
def specImportConfigFields : List String :=
  ["constrain_size", "convert_measure", "use_image_search",
   "use_apply_transform", "read_keyframe", "use_world_matrix",
   "axis_forward", "axis_up", "filepath"]

/-- From the spec's data model: the declared ExportConfiguration fields
(scale factor, selection-only flag, hierarchy-export flag, keyframe-write
flag, forward/up axis selection, target file path). -/
def specExportConfigFields : List String :=
  ["scale_factor", "use_selection", "use_hierarchy", "write_keyframe",
   "axis_forward", "axis_up", "filepath"]

/-- The three keys the spec names as excluded from the pass-through set. -/
def specExcludedKeys : List String :=
  ["axis_forward", "axis_up", "filter_glob"]

/-- Erasing an element not occurring in the prefix removes exactly the head
of the suffix. -/
theorem erase_append_cons {A : Type} [DecidableEq A] (a : A) (l t : List A)
    (h : a ∉ l) : (l ++ a :: t).erase a = l ++ t := by
  rw [List.erase_append_right _ h, List.erase_cons_head]

/-- The keys of the import keyword record, evaluated. -/
theorem import_passed_keys (p : Import3DSProps) :
    (Import3DS.passedKeywords p).map Prod.fst =
      ["filepath", "constrain_size", "convert_measure", "use_image_search",
       "use_apply_transform", "read_keyframe", "use_world_matrix",
       "global_matrix"] := rfl

/-- The keys of the export keyword record, evaluated. -/
theorem export_passed_keys (p : Export3DSProps) :
    (Export3DS.passedKeywords p).map Prod.fst =
      ["filepath", "scale_factor", "use_selection", "use_hierarchy",
       "write_keyframe", "global_matrix"] := rfl

/-- C1: for every assignment of the configuration fields, the keyword record
`Import3DS.execute` passes to the load delegate holds exactly the declared
ImportConfiguration fields minus the axis-forward/axis-up/filter-glob keys
plus the computed `global_matrix`, and the record `Export3DS.execute` passes
to the save delegate holds exactly the declared ExportConfiguration fields
minus the same three keys plus `global_matrix`. -/
theorem claim_C1_passthrough_exact (pi : Import3DSProps) (pe : Export3DSProps) :
    ((Import3DS.passedKeywords pi).map Prod.fst).Perm
      ((specImportConfigFields.filter fun k => !specExcludedKeys.contains k)
        ++ ["global_matrix"]) ∧
    ((Export3DS.passedKeywords pe).map Prod.fst).Perm
      ((specExportConfigFields.filter fun k => !specExcludedKeys.contains k)
        ++ ["global_matrix"]) := by
  rw [import_passed_keys pi, export_passed_keys pe]
  exact ⟨by decide, by decide⟩

/-- C2: for every configured axis pair, the `global_matrix` entry of the
record passed by `Import3DS.execute` is `axis_conversion` with that pair as
the source convention, promoted to 4x4, and the entry passed by
`Export3DS.execute` is `axis_conversion` with that pair as the target
convention, promoted to 4x4. -/
theorem claim_C2_global_matrix_wiring (pi : Import3DSProps) (pe : Export3DSProps) :
    List.lookup "global_matrix" (Import3DS.passedKeywords pi) =
      some (.m (to_4x4 (axis_conversion pi.axis_forward pi.axis_up Axis.Y Axis.Z))) ∧
    List.lookup "global_matrix" (Export3DS.passedKeywords pe) =
      some (.m (to_4x4 (axis_conversion Axis.Y Axis.Z pe.axis_forward pe.axis_up))) :=
  ⟨rfl, rfl⟩

/-- C3: `register` and `unregister` are exact inverses on the host state:
they touch the same class list, and on a state where none of the add-on's
classes are registered and neither menu callback is present, unregistering
after registering restores the initial state exactly. -/
theorem claim_C3_register_unregister_inverse (s : HostState)
    (h1 : AddonClass.import3ds ∉ s.registered)
    (h2 : AddonClass.importIncludePanel ∉ s.registered)
    (h3 : AddonClass.importTransformPanel ∉ s.registered)
    (h4 : AddonClass.export3ds ∉ s.registered)
    (h5 : AddonClass.exportIncludePanel ∉ s.registered)
    (h6 : AddonClass.exportTransformPanel ∉ s.registered)
    (hi : MenuCallback.menuFuncImport ∉ s.import_menu)
    (he : MenuCallback.menuFuncExport ∉ s.export_menu) :
    unregisterClassList = registerClassList ∧ unregister (register s) = s := by
  refine ⟨rfl, ?_⟩
  obtain ⟨reg, imen, emen⟩ := s
  simp only [register, unregister, register_class, unregister_class,
    registerClassList, unregisterClassList, List.foldl, List.append_assoc,
    List.singleton_append, List.cons_append, List.nil_append,
    HostState.mk.injEq]
  refine ⟨?_, ?_, ?_⟩
  · rw [erase_append_cons _ _ _ h1, erase_append_cons _ _ _ h2,
      erase_append_cons _ _ _ h3, erase_append_cons _ _ _ h4,
      erase_append_cons _ _ _ h5, erase_append_cons _ _ _ h6,
      List.append_nil]
  · rw [erase_append_cons _ _ _ hi, List.append_nil]
  · rw [erase_append_cons _ _ _ he, List.append_nil]

/-- Witness for C3: the round trip at the empty host state. -/
theorem claim_C3_register_unregister_inverse_witness :
    AddonClass.import3ds ∉ (HostState.mk [] [] []).registered ∧
    AddonClass.importIncludePanel ∉ (HostState.mk [] [] []).registered ∧
    AddonClass.importTransformPanel ∉ (HostState.mk [] [] []).registered ∧
    AddonClass.export3ds ∉ (HostState.mk [] [] []).registered ∧
    AddonClass.exportIncludePanel ∉ (HostState.mk [] [] []).registered ∧
    AddonClass.exportTransformPanel ∉ (HostState.mk [] [] []).registered ∧
    MenuCallback.menuFuncImport ∉ (HostState.mk [] [] []).import_menu ∧
    MenuCallback.menuFuncExport ∉ (HostState.mk [] [] []).export_menu ∧
    (unregisterClassList = registerClassList ∧
      unregister (register (HostState.mk [] [] [])) = HostState.mk [] [] []) :=
  ⟨by decide, by decide, by decide, by decide, by decide, by decide,
   by decide, by decide,
   claim_C3_register_unregister_inverse (HostState.mk [] [] [])
     (by decide) (by decide) (by decide) (by decide) (by decide) (by decide)
     (by decide) (by decide)⟩

/-- C4: whenever the file browser has an active operator, each panel's poll
returns true exactly when the active operator's identifier equals the
runtime identifier of the panel's owning operator (`Import3DS` for the
two import panels, `Export3DS` for the two export panels). -/
theorem claim_C4_poll_matches_owner (ctx : Context) (op : ActiveOperator)
    (h : ctx.space_data.active_operator = some op) :
    (MAX3DS_PT_import_include.poll ctx = .ok true ↔
      op.bl_idname = rnaOperatorIdname Import3DS.bl_idname) ∧
    (MAX3DS_PT_import_transform.poll ctx = .ok true ↔
      op.bl_idname = rnaOperatorIdname Import3DS.bl_idname) ∧
    (MAX3DS_PT_export_include.poll ctx = .ok true ↔
      op.bl_idname = rnaOperatorIdname Export3DS.bl_idname) ∧
    (MAX3DS_PT_export_transform.poll ctx = .ok true ↔
      op.bl_idname = rnaOperatorIdname Export3DS.bl_idname) := by
  have hri : rnaOperatorIdname Import3DS.bl_idname = "IMPORT_SCENE_OT_max3ds" := by decide
  have hre : rnaOperatorIdname Export3DS.bl_idname = "EXPORT_SCENE_OT_max3ds" := by decide
  rw [hri, hre]
  simp [MAX3DS_PT_import_include.poll, MAX3DS_PT_import_transform.poll,
    MAX3DS_PT_export_include.poll, MAX3DS_PT_export_transform.poll, h]

/-- Witness for C4: a context whose active operator is the import one. -/
theorem claim_C4_poll_matches_owner_witness :
    (Context.mk (SpaceFile.mk (some (ActiveOperator.mk "IMPORT_SCENE_OT_max3ds")))).space_data.active_operator
      = some (ActiveOperator.mk "IMPORT_SCENE_OT_max3ds") ∧
    ((MAX3DS_PT_import_include.poll
        (Context.mk (SpaceFile.mk (some (ActiveOperator.mk "IMPORT_SCENE_OT_max3ds")))) = .ok true ↔
      (ActiveOperator.mk "IMPORT_SCENE_OT_max3ds").bl_idname = rnaOperatorIdname Import3DS.bl_idname) ∧
    (MAX3DS_PT_import_transform.poll
        (Context.mk (SpaceFile.mk (some (ActiveOperator.mk "IMPORT_SCENE_OT_max3ds")))) = .ok true ↔
      (ActiveOperator.mk "IMPORT_SCENE_OT_max3ds").bl_idname = rnaOperatorIdname Import3DS.bl_idname) ∧
    (MAX3DS_PT_export_include.poll
        (Context.mk (SpaceFile.mk (some (ActiveOperator.mk "IMPORT_SCENE_OT_max3ds")))) = .ok true ↔
      (ActiveOperator.mk "IMPORT_SCENE_OT_max3ds").bl_idname = rnaOperatorIdname Export3DS.bl_idname) ∧
    (MAX3DS_PT_export_transform.poll
        (Context.mk (SpaceFile.mk (some (ActiveOperator.mk "IMPORT_SCENE_OT_max3ds")))) = .ok true ↔
      (ActiveOperator.mk "IMPORT_SCENE_OT_max3ds").bl_idname = rnaOperatorIdname Export3DS.bl_idname)) :=
  ⟨rfl, claim_C4_poll_matches_owner _ _ rfl⟩

/-- C5: `Import3DS.execute` returns exactly what the load delegate returns
on the keyword record it builds, and `Export3DS.execute` returns exactly
what the save delegate returns; for every delegate and configuration, no
value originates in this layer. -/
theorem claim_C5_pure_delegation {α β : Type}
    (load : List (String × Value) → α) (save : List (String × Value) → β)
    (pi : Import3DSProps) (pe : Export3DSProps) :
    Import3DS.execute load pi = load (Import3DS.passedKeywords pi) ∧
    Export3DS.execute save pe = save (Export3DS.passedKeywords pe) :=
  ⟨rfl, rfl⟩

/-- C6: each panel's draw emits a fixed ordered sequence of property widgets
and nothing else: the import-include panel emits (use_image_search,
read_keyframe); the import-transform panel emits (constrain_size,
convert_measure, use_apply_transform, use_world_matrix, axis_forward,
axis_up); export-include emits
(use_selection, use_hierarchy, write_keyframe); export-transform emits
(scale_factor, axis_forward, axis_up); the same sequence for every context
with an active operator. -/
theorem claim_C6_draw_fixed_sequences (ctx : Context) (op : ActiveOperator)
    (layout : UILayout) (h : ctx.space_data.active_operator = some op) :
    MAX3DS_PT_import_include.draw ctx layout =
      .ok (UILayout.mk true true
        (layout.props ++ ["use_image_search", "read_keyframe"])) ∧
    MAX3DS_PT_import_transform.draw ctx layout =
      .ok (UILayout.mk true false
        (layout.props ++ ["constrain_size", "convert_measure",
          "use_apply_transform", "use_world_matrix", "axis_forward",
          "axis_up"])) ∧
    MAX3DS_PT_export_include.draw ctx layout =
      .ok (UILayout.mk true true
        (layout.props ++ ["use_selection", "use_hierarchy",
          "write_keyframe"])) ∧
    MAX3DS_PT_export_transform.draw ctx layout =
      .ok (UILayout.mk true false
        (layout.props ++ ["scale_factor", "axis_forward", "axis_up"])) := by
  simp [MAX3DS_PT_import_include.draw, MAX3DS_PT_import_transform.draw,
    MAX3DS_PT_export_include.draw, MAX3DS_PT_export_transform.draw, h]

/-- Witness for C6: the draw sequences on an empty layout in a context with
the import operator active. -/
theorem claim_C6_draw_fixed_sequences_witness :
    (Context.mk (SpaceFile.mk (some (ActiveOperator.mk "IMPORT_SCENE_OT_max3ds")))).space_data.active_operator
      = some (ActiveOperator.mk "IMPORT_SCENE_OT_max3ds") ∧
    (MAX3DS_PT_import_include.draw
        (Context.mk (SpaceFile.mk (some (ActiveOperator.mk "IMPORT_SCENE_OT_max3ds"))))
        (UILayout.mk false false []) =
      .ok (UILayout.mk true true
        ((UILayout.mk false false []).props ++ ["use_image_search", "read_keyframe"])) ∧
    MAX3DS_PT_import_transform.draw
        (Context.mk (SpaceFile.mk (some (ActiveOperator.mk "IMPORT_SCENE_OT_max3ds"))))
        (UILayout.mk false false []) =
      .ok (UILayout.mk true false
        ((UILayout.mk false false []).props ++ ["constrain_size", "convert_measure",
          "use_apply_transform", "use_world_matrix", "axis_forward", "axis_up"])) ∧
    MAX3DS_PT_export_include.draw
        (Context.mk (SpaceFile.mk (some (ActiveOperator.mk "IMPORT_SCENE_OT_max3ds"))))
        (UILayout.mk false false []) =
      .ok (UILayout.mk true true
        ((UILayout.mk false false []).props ++ ["use_selection", "use_hierarchy",
          "write_keyframe"])) ∧
    MAX3DS_PT_export_transform.draw
        (Context.mk (SpaceFile.mk (some (ActiveOperator.mk "IMPORT_SCENE_OT_max3ds"))))
        (UILayout.mk false false []) =
      .ok (UILayout.mk true false
        ((UILayout.mk false false []).props ++ ["scale_factor", "axis_forward",
          "axis_up"]))) :=
  ⟨rfl, claim_C6_draw_fixed_sequences _ _ _ rfl⟩

/-- C7: each invocation of `menu_func_import` appends exactly one entry,
labeled "3D Studio (.3ds)" and bound to `Import3DS.bl_idname`, to the menu
layout it is given, and `menu_func_export` appends exactly one entry with
the same label bound to `Export3DS.bl_idname`; both are pure functions of
the layout. -/
theorem claim_C7_menu_single_entry (layout : List MenuEntry) :
    menu_func_import layout =
      layout ++ [MenuEntry.mk Import3DS.bl_idname "3D Studio (.3ds)"] ∧
    (menu_func_import layout).length = layout.length + 1 ∧
    menu_func_export layout =
      layout ++ [MenuEntry.mk Export3DS.bl_idname "3D Studio (.3ds)"] ∧
    (menu_func_export layout).length = layout.length + 1 :=
  ⟨rfl, by simp [menu_func_import], rfl, by simp [menu_func_export]⟩

/-- C8: the export ignore tuple adds `check_existing` to the three keys of
the import ignore tuple, so the export exclusion set strictly contains
the import one; accordingly `check_existing` is a declared export property
that is absent from the record passed to the save delegate. -/
theorem claim_C8_export_excludes_check_existing (pe : Export3DSProps) :
    "check_existing" ∈ (Export3DSProps.allKeywords pe).map Prod.fst ∧
    "check_existing" ∉ (Export3DS.passedKeywords pe).map Prod.fst ∧
    Export3DS.ignoreKeys = Import3DS.ignoreKeys ++ ["check_existing"] ∧
    Import3DS.ignoreKeys ⊆ Export3DS.ignoreKeys ∧
    "check_existing" ∉ Import3DS.ignoreKeys := by
  have ha : (Export3DSProps.allKeywords pe).map Prod.fst =
      ["axis_forward", "axis_up", "filepath", "check_existing", "filter_glob",
       "scale_factor", "use_selection", "use_hierarchy", "write_keyframe"] := rfl
  rw [ha, export_passed_keys pe]
  refine ⟨by decide, by decide, rfl, ?_, by decide⟩
  intro k hk
  fin_cases hk <;> decide

/-- C9: with the orientation helper's default axis configuration (forward Y,
up Z) on both operators, the import and export global matrices are both the
4x4 identity. -/
theorem claim_C9_default_axes_identity :
    Import3DS.defaults.axis_forward = Axis.Y ∧
    Import3DS.defaults.axis_up = Axis.Z ∧
    Export3DS.defaults.axis_forward = Axis.Y ∧
    Export3DS.defaults.axis_up = Axis.Z ∧
    Import3DS.global_matrix Import3DS.defaults = 1 ∧
    Export3DS.global_matrix Export3DS.defaults = 1 := by
  refine ⟨rfl, rfl, rfl, rfl, by decide, by decide⟩

/-- C10: every panel poll dereferences the active operator without a null
guard: in any context whose file browser has no active operator, all four
polls raise an attribute error instead of returning false. -/
theorem claim_C10_poll_raises_on_none (ctx : Context)
    (h : ctx.space_data.active_operator = none) :
    MAX3DS_PT_import_include.poll ctx = .error .attributeError ∧
    MAX3DS_PT_import_transform.poll ctx = .error .attributeError ∧
    MAX3DS_PT_export_include.poll ctx = .error .attributeError ∧
    MAX3DS_PT_export_transform.poll ctx = .error .attributeError := by
  simp [MAX3DS_PT_import_include.poll, MAX3DS_PT_import_transform.poll,
    MAX3DS_PT_export_include.poll, MAX3DS_PT_export_transform.poll, h]

/-- Witness for C10: the context with no active operator. -/
theorem claim_C10_poll_raises_on_none_witness :
    (Context.mk (SpaceFile.mk none)).space_data.active_operator = none ∧
    (MAX3DS_PT_import_include.poll (Context.mk (SpaceFile.mk none)) =
      .error .attributeError ∧
    MAX3DS_PT_import_transform.poll (Context.mk (SpaceFile.mk none)) =
      .error .attributeError ∧
    MAX3DS_PT_export_include.poll (Context.mk (SpaceFile.mk none)) =
      .error .attributeError ∧
    MAX3DS_PT_export_transform.poll (Context.mk (SpaceFile.mk none)) =
      .error .attributeError) :=
  ⟨rfl, claim_C10_poll_raises_on_none _ rfl⟩
